import Mathlib

/-!
Verification of the QtPythonEmbed execution/debug controller.

Shallow embedding of the `CodeRunner` controller (src/CodeRunner.cpp,
src/CodeRunner.h), the output-redirection half of
`PythonInterpreterManager` (src/unnamed/part_001), and the process-wide
trace-bridge registration (the `g_currentRunner` global).

The debug machinery (`isBreakpoint`, `continueExecution`,
`stepInto`/`stepOver`/`stepOut`, `setBreakpoints` and the pause/wait
protocol) is declared in src/CodeRunner.h and invoked from
src/PyWindow.cpp, but no definition of those members exists under src/;
where a claim depends on that missing code it is modelled from the
specification, and each such definition is marked in its doc comment.
-/

namespace QtPythonEmbed

/-- The `CodeRunner::DebugState` enum (src/CodeRunner.h lines 29-36). -/
inductive DebugState
  | Running
  | Paused
  | StepInto
  | StepOver
  | StepOut
deriving DecidableEq, Repr

/-- The Qt signals a `CodeRunner` emits (src/CodeRunner.h lines 50-90).
`progressUpdated` is declared in the header but never emitted in src/. -/
inductive Signal
  | executionStarted
  | executionFinished
  | lineExecuted (lineNumber : Int)
  | outputReceived (text : String)
  | errorOccurred (message : String)
  | debugStateChanged (state : DebugState)
deriving DecidableEq, Repr

/-- The member state of a `CodeRunner` (src/CodeRunner.h lines 180-189).
`QSet<int> m_breakpoints` is modelled as a finite set of integers. -/
structure RunnerState where
  isExecuting : Bool
  shouldAbort : Bool
  executionDelay : Int
  currentLine : Int
  debugState : DebugState
  breakpoints : Finset Int
  callDepth : Int
deriving DecidableEq

/-- The in-class member initializers of `CodeRunner`
(src/CodeRunner.h lines 181-187). -/
def initialRunnerState : RunnerState :=
  { isExecuting := false
    shouldAbort := false
    executionDelay := 0
    currentLine := -1
    debugState := DebugState.Running
    breakpoints := ∅
    callDepth := 0 }

/-- Result of a `runCode` call (src/CodeRunner.cpp lines 26-40):
the updated member state, the code enqueued onto the event loop via
`QMetaObject::invokeMethod` (if any), and whether the rejection warning
`qWarning() << "Code execution already in progress"` was printed. -/
structure RunCodeResult where
  state : RunnerState
  enqueued : Option String
  warned : Bool
deriving DecidableEq

/-- `CodeRunner::runCode` (src/CodeRunner.cpp lines 26-40): if
`m_isExecuting` is set, warn and return without touching anything;
otherwise clear `m_shouldAbort`, set `m_isExecuting`, and enqueue the
asynchronous execution of `code`. -/
def runCode (code : String) (s : RunnerState) : RunCodeResult :=
  if s.isExecuting then
    { state := s, enqueued := none, warned := true }
  else
    { state := { s with shouldAbort := false, isExecuting := true }
      enqueued := some code
      warned := false }

/-- `CodeRunner::abortExecution` (src/CodeRunner.cpp lines 42-45):
sets `m_shouldAbort` and nothing else. -/
def abortExecution (s : RunnerState) : RunnerState :=
  { s with shouldAbort := true }

/-- `CodeRunner::setExecutionDelay` (src/CodeRunner.cpp lines 47-50). -/
def setExecutionDelay (delayMs : Int) (s : RunnerState) : RunnerState :=
  { s with executionDelay := delayMs }

/-- A `PyFrameObject`: the only observation the runner makes of a frame
in the trace path is `PyFrame_GetLineNumber` (src/CodeRunner.cpp line 60). -/
structure Frame where
  lineNumber : Int
deriving DecidableEq

/-- What one invocation of the trace callback does
(src/CodeRunner.cpp lines 52-70): the signals it queues to the main
thread, whether it sets a Python error indicator (raises), and its
return value to the interpreter. -/
structure TraceOutcome where
  queued : List Signal
  raisesError : Bool
  ret : Int
deriving DecidableEq

/-- `CodeRunner::pythonTraceFunction` (src/CodeRunner.cpp lines 52-70).
`runner` is the process-wide `g_currentRunner` (null when none is
registered); `frame` is null when the interpreter passes no frame.
When a runner is registered, its abort flag is clear and the frame is
non-null, the callback queues a `lineExecuted` signal; in every case it
sets no Python error (the body contains no `PyErr_*` call) and
returns 0. -/
def pythonTraceFunction (runner : Option RunnerState) (frame : Option Frame) :
    TraceOutcome :=
  match runner, frame with
  | some r, some f =>
      if r.shouldAbort then
        { queued := [], raisesError := false, ret := 0 }
      else
        { queued := [Signal.lineExecuted f.lineNumber], raisesError := false, ret := 0 }
  | _, _ => { queued := [], raisesError := false, ret := 0 }

/-- `CodeRunner::getLineNumber` (src/CodeRunner.cpp lines 72-81):
null frames resolve to line -1. -/
def getLineNumber (frame : Option Frame) : Int :=
  match frame with
  | none => -1
  | some f => f.lineNumber

/-- The interpreter's per-statement execution loop as the runner's trace
callback observes it: before each statement the interpreter invokes
`pythonTraceFunction`; execution of the remaining statements stops only
if the callback raises a Python error or returns non-zero. Returns the
number of statements actually executed and the line signals queued. -/
def runStatements (runner : Option RunnerState) : List Int → Nat × List Signal
  | [] => (0, [])
  | line :: rest =>
      let t := pythonTraceFunction runner (some { lineNumber := line })
      if t.raisesError ∨ t.ret ≠ 0 then
        (0, t.queued)
      else
        let r := runStatements runner rest
        (r.1 + 1, t.queued ++ r.2)

/-- Outcome of `pyManager.executeCode(code)` as seen by the inner
`try`/`catch` of `executePythonCodeSafely` (src/CodeRunner.cpp
lines 126-164): it either returns normally, or throws with a Python
error set whose value is a unicode message, or throws with a Python
error set whose value is not unicode, or throws with no Python error
set. -/
inductive PyResult
  | ok
  | errWithMsg (msg : String)
  | errNoMsg
  | errNoPyErr
deriving DecidableEq

/-- The environment one session of `executePythonCodeSafely` runs in:
whether `PythonInterpreterManager::isInitialized()` holds, the text
chunks the program writes to the redirected stdout/stderr before it
finishes or faults, and how `executeCode` resolves. -/
structure ExecEnv where
  isInitialized : Bool
  writes : List String
  result : PyResult
deriving DecidableEq

def uninitializedErrorMsg : String :=
  "Execution error: Python interpreter not initialized"

def unknownPythonErrorMsg : String := "Unknown Python error"

def unknownDuringExecutionMsg : String := "Unknown error during execution"

/-- `CodeRunner::executePythonCodeSafely` (src/CodeRunner.cpp
lines 98-186), as the pair (final member state, ordered signal
emissions).

Paths traced from the source:
* `!pyManager.isInitialized()` (line 106): `std::runtime_error` thrown
  at line 107 is caught by the outer `catch (const std::exception&)` at
  line 174, which emits `errorOccurred("Execution error: ...")`; control
  then falls to line 185 which clears `m_isExecuting`. No
  `executionFinished` is emitted on this path.
* `executeCode` throws (inner `catch (...)` lines 136-164): the GIL is
  released, `errorOccurred` carries the fetched Python message (or the
  corresponding fallback text), `m_isExecuting` is cleared at line 161,
  `executionFinished` is emitted at line 162, and the function returns.
* `executeCode` returns (lines 128-172): the trace hook is cleared; when
  `m_shouldAbort` is set, line 133 calls `PyErr_SetString` (setting a
  pending `KeyboardInterrupt` that nothing inspects — no signal changes);
  the GIL is released, `executionFinished` is queued, and line 185
  clears `m_isExecuting`.
Output chunks written during `executeCode` are forwarded as
`outputReceived` signals in write order (lines 117-123). -/
def executePythonCodeSafely (s : RunnerState) (env : ExecEnv) :
    RunnerState × List Signal :=
  if env.isInitialized then
    let outs := env.writes.map Signal.outputReceived
    match env.result with
    | PyResult.ok =>
        ({ s with isExecuting := false },
         Signal.executionStarted :: outs ++ [Signal.executionFinished])
    | PyResult.errWithMsg msg =>
        ({ s with isExecuting := false },
         Signal.executionStarted :: outs ++
           [Signal.errorOccurred msg, Signal.executionFinished])
    | PyResult.errNoMsg =>
        ({ s with isExecuting := false },
         Signal.executionStarted :: outs ++
           [Signal.errorOccurred unknownPythonErrorMsg, Signal.executionFinished])
    | PyResult.errNoPyErr =>
        ({ s with isExecuting := false },
         Signal.executionStarted :: outs ++
           [Signal.errorOccurred unknownDuringExecutionMsg, Signal.executionFinished])
  else
    ({ s with isExecuting := false },
     [Signal.executionStarted, Signal.errorOccurred uninitializedErrorMsg])

/-- Recognizer for the `executionFinished` signal. -/
def isFinishedSignal : Signal → Bool
  | Signal.executionFinished => true
  | _ => false

/-- Recognizer for the `errorOccurred` signal. -/
def isErrorSignal : Signal → Bool
  | Signal.errorOccurred _ => true
  | _ => false

/-- Number of `executionFinished` signals in an emission sequence. -/
def finishedCount (sigs : List Signal) : Nat :=
  (sigs.filter isFinishedSignal).length

/-- Number of `errorOccurred` signals in an emission sequence. -/
def errorCount (sigs : List Signal) : Nat :=
  (sigs.filter isErrorSignal).length

/-! ### Process-wide runner registration (the trace bridge) -/

/-- `CodeRunner::CodeRunner` (src/CodeRunner.cpp lines 15-19) as its
effect on the process-wide `g_currentRunner` pointer (line 13): it
unconditionally overwrites the pointer with the new instance, here
identified by a numeric id. -/
def constructRunner (newRunnerId : Nat) (g : Option Nat) : Option Nat :=
  let _ := g
  some newRunnerId

/-- `CodeRunner::~CodeRunner` (src/CodeRunner.cpp lines 21-24): the
destructor only calls `abortExecution()` on its own member state and
does not touch `g_currentRunner`. -/
def destructRunner (r : RunnerState) (g : Option Nat) :
    RunnerState × Option Nat :=
  (abortExecution r, g)

/-! ### Output redirection (src/unnamed/part_001 lines 266-317) -/

/-- The Python-side `OutputRedirector.write` installed into
`sys.stdout`/`sys.stderr` (src/unnamed/part_001 lines 283-293): each
`write(text)` synchronously calls the stored callback on `text`. -/
def outputRedirectorWrite {α : Type} (cb : String → α) (text : String) : α :=
  cb text

/-- The `py::cpp_function` wrapper (src/unnamed/part_001 lines 299-303):
forwards `text` to `m_outputCallback` when one is set, else drops it.
The result lists the forwarded calls (zero or one per write). -/
def cppCallbackWrapper {α : Type} (mcb : Option (String → α)) (text : String) :
    List α :=
  match mcb with
  | some f => [f text]
  | none => []

/-- The callback `CodeRunner` passes to `redirectPythonOutput`
(src/CodeRunner.cpp lines 118-123): queue one `outputReceived` signal
carrying the text. -/
def runnerOutputCallback (text : String) : Signal :=
  Signal.outputReceived text

/-- The signals a session delivers for a given sequence of writes the
interpreted program performs: each write goes through
`OutputRedirector.write`, then the cpp_function wrapper, synchronously
and in order (`redirectPythonOutput` stores `m_outputCallback` at
src/unnamed/part_001 line 269 before installing the redirector). -/
def sessionOutputSignals (mcb : Option (String → Signal)) :
    List String → List Signal
  | [] => []
  | text :: rest =>
      outputRedirectorWrite (cppCallbackWrapper mcb) text ++
        sessionOutputSignals mcb rest

/-! ### Debug policy and pause protocol, modelled from the spec

The definitions below carry `Modelled from the spec:` doc comments:
the bodies of `isBreakpoint`, the stepping commands and the pause/wait
protocol are absent from src/ (src/CodeRunner.h declares them,
src/PyWindow.cpp connects them), so they are reconstructed from the
specification's state-machine table (spec §4.1) and lock protocol
(spec §4.1/§5). -/

/-- Modelled from the spec: `CodeRunner::isBreakpoint` (declared at
src/CodeRunner.h lines 174-178, no definition under src/). The spec:
the breakpoint set is "a set of line numbers ... consulted once per
trace event", pause "iff the next statement's line ∈ B". -/
def isBreakpoint (breakpoints : Finset Int) (lineNumber : Int) : Bool :=
  decide (lineNumber ∈ breakpoints)

/-- A trace event as the spec's state machine distinguishes them:
a per-statement line event, a function-call event, a return event. -/
inductive TraceEvent
  | line (lineNumber : Int)
  | call
  | ret
deriving DecidableEq

/-- The debug context the trace callback consults: current debug state,
breakpoint set, current call depth, and the depth recorded when a
stepOver/stepOut command was issued. -/
structure DebugCtx where
  debugState : DebugState
  breakpoints : Finset Int
  callDepth : Int
  entryDepth : Int
deriving DecidableEq

/-- Modelled from the spec: the pause decision the trace callback makes
for one event (the debug-policy half of the trace callback is absent
from src/). From the spec's transition table (§4.1): Running pauses on
a line that hits a breakpoint; StepInto pauses on any line event, any
depth; StepOver pauses on a line event at call depth ≤ entry depth;
StepOut pauses on a return event bringing depth < entry depth. -/
def tracePause (ctx : DebugCtx) (ev : TraceEvent) : Bool :=
  match ev with
  | TraceEvent.line n =>
      match ctx.debugState with
      | DebugState.Running => isBreakpoint ctx.breakpoints n
      | DebugState.StepInto => true
      | DebugState.StepOver => decide (ctx.callDepth ≤ ctx.entryDepth)
      | _ => false
  | TraceEvent.call => false
  | TraceEvent.ret =>
      match ctx.debugState with
      | DebugState.StepOut => decide (ctx.callDepth - 1 < ctx.entryDepth)
      | _ => false

/-- A Running-mode session context over breakpoint set `B`
(run start: state Running, call depth 0 — spec §3). -/
def runningCtx (B : Finset Int) : DebugCtx :=
  { debugState := DebugState.Running, breakpoints := B, callDepth := 0, entryDepth := 0 }

/-- The statements of a Running-mode session at which the session
pauses: after each pause the caller's `continueExecution()` returns the
state to Running (spec §4.1 table), so every statement is evaluated in
the Running state. -/
def sessionPausedLines (B : Finset Int) (lines : List Int) : List Int :=
  lines.filter (fun n => tracePause (runningCtx B) (TraceEvent.line n))

/-- GIL-related actions of the worker thread around a debug pause. -/
inductive GilAction
  | release
  | acquire
  | waitCond
deriving DecidableEq

/-- Modelled from the spec: the protocol the trace callback follows to
block for a debug pause (the pause/wait code is absent from src/).
Spec §4.1: "release the interpreter lock, block on the condition
variable, re-acquire the interpreter lock upon wake, then return". -/
def pauseProtocol : List GilAction :=
  [GilAction.release, GilAction.waitCond, GilAction.acquire]

/-- Whether, starting with the GIL held iff `held`, no `waitCond` step
of the action sequence is entered while the GIL is held. -/
def neverWaitsWhileHolding (held : Bool) : List GilAction → Bool
  | [] => true
  | GilAction.waitCond :: rest => !held && neverWaitsWhileHolding held rest
  | GilAction.release :: rest => neverWaitsWhileHolding false rest
  | GilAction.acquire :: rest => neverWaitsWhileHolding true rest

/-- Whether the GIL is held after running the action sequence, starting
from `held`. -/
def gilHeldAfter (held : Bool) : List GilAction → Bool
  | [] => held
  | GilAction.waitCond :: rest => gilHeldAfter held rest
  | GilAction.release :: rest => gilHeldAfter false rest
  | GilAction.acquire :: rest => gilHeldAfter true rest

/-- A concrete source-text submission used to instantiate theorems. -/
def sampleSubmission : String :=
  "for i in range(3): print(i)"

/-! ## Theorems -/

/-- Claim C1 (code bug, evaluation at the failing input): when the
interpreter is not initialized, `executePythonCodeSafely` emits
`executionStarted` and one `errorOccurred`, but `executionFinished` is
never emitted — the outer `catch` of src/CodeRunner.cpp (lines 174-183)
falls through to line 185 without emitting it, contradicting the
claimed "error-occurred signal is followed immediately by
execution-finished" on the uninitialized-interpreter path. -/
theorem uninitializedRun_never_emits_finished :
    finishedCount (executePythonCodeSafely initialRunnerState
      { isInitialized := false, writes := [], result := PyResult.ok }).2 = 0 ∧
    (executePythonCodeSafely initialRunnerState
      { isInitialized := false, writes := [], result := PyResult.ok }).2 =
      [Signal.executionStarted, Signal.errorOccurred uninitializedErrorMsg] :=
  ⟨rfl, rfl⟩

/-- Claim C2 (modelled from the spec, the pause logic being absent from
src/): with debug state `Running`, the trace policy pauses at a line
event iff that line is a member of the breakpoint set; and a session
over an empty breakpoint set pauses at no statement. -/
theorem running_pauses_iff_breakpoint :
    (∀ (ctx : DebugCtx) (n : Int), ctx.debugState = DebugState.Running →
      (tracePause ctx (TraceEvent.line n) = true ↔ n ∈ ctx.breakpoints)) ∧
    (∀ lines : List Int, sessionPausedLines ∅ lines = []) := by
  constructor
  · intro ctx n h
    unfold tracePause
    rw [h]
    simp [isBreakpoint]
  · intro lines
    have hfalse : ∀ n : Int,
        tracePause (runningCtx ∅) (TraceEvent.line n) = false := by
      intro n
      simp [tracePause, runningCtx, isBreakpoint]
    simp only [sessionPausedLines, List.filter_eq_nil_iff]
    intro a _
    simp [hfalse a]

/-- Witness for C2 at a concrete context with breakpoint set containing
line 3. -/
theorem running_pauses_iff_breakpoint_witness :
    ({ debugState := DebugState.Running, breakpoints := {3}, callDepth := 0,
       entryDepth := 0 : DebugCtx }).debugState = DebugState.Running ∧
    (tracePause
      { debugState := DebugState.Running, breakpoints := {3}, callDepth := 0,
        entryDepth := 0 } (TraceEvent.line 3) = true ↔
      (3 : Int) ∈ ({3} : Finset Int)) ∧
    sessionPausedLines ∅ [1, 2, 3] = [] :=
  ⟨rfl,
   running_pauses_iff_breakpoint.1
     { debugState := DebugState.Running, breakpoints := {3}, callDepth := 0,
       entryDepth := 0 } 3 rfl,
   running_pauses_iff_breakpoint.2 [1, 2, 3]⟩

/-- Claim C3 (code bug, evaluation at the failing input): with the abort
flag already set, the trace callback of src/CodeRunner.cpp (lines 52-70)
raises no interpreter-level interrupt — it only suppresses the
`lineExecuted` signals — so a five-statement program executes all five
statements after abort, not at most one. -/
theorem abort_does_not_interrupt_execution :
    (runStatements (some { initialRunnerState with shouldAbort := true })
      [10, 11, 12, 13, 14]).1 = 5 ∧
    (runStatements (some { initialRunnerState with shouldAbort := true })
      [10, 11, 12, 13, 14]).2 = [] :=
  ⟨rfl, rfl⟩

/-- Claim C4: a `runCode` call while `m_isExecuting` is set warns and
changes nothing — the member state is returned unchanged and no run is
enqueued (src/CodeRunner.cpp lines 26-31). -/
theorem runCode_rejected_while_executing (code : String) (s : RunnerState)
    (h : s.isExecuting = true) :
    runCode code s = { state := s, enqueued := none, warned := true } := by
  simp [runCode, h]

/-- Witness for C4 at a concrete busy runner state. -/
theorem runCode_rejected_while_executing_witness :
    ({ initialRunnerState with isExecuting := true }).isExecuting = true ∧
    runCode sampleSubmission { initialRunnerState with isExecuting := true } =
      { state := { initialRunnerState with isExecuting := true },
        enqueued := none, warned := true } :=
  ⟨rfl, runCode_rejected_while_executing sampleSubmission
    { initialRunnerState with isExecuting := true } rfl⟩

/-- Claim C5 (modelled from the spec, the stepping logic being absent
from src/): in state `StepInto` the trace policy pauses at any line
event, at any call depth. -/
theorem stepInto_pauses_next_statement (ctx : DebugCtx) (n : Int)
    (h : ctx.debugState = DebugState.StepInto) :
    tracePause ctx (TraceEvent.line n) = true := by
  unfold tracePause
  rw [h]

/-- Witness for C5 at call depth 7 (deeper than the entry depth 2,
i.e. inside a newly entered function). -/
theorem stepInto_pauses_next_statement_witness :
    ({ debugState := DebugState.StepInto, breakpoints := ∅, callDepth := 7,
       entryDepth := 2 : DebugCtx }).debugState = DebugState.StepInto ∧
    tracePause
      { debugState := DebugState.StepInto, breakpoints := ∅, callDepth := 7,
        entryDepth := 2 } (TraceEvent.line 42) = true :=
  ⟨rfl, stepInto_pauses_next_statement
    { debugState := DebugState.StepInto, breakpoints := ∅, callDepth := 7,
      entryDepth := 2 } 42 rfl⟩

/-- Claim C6: the trace callback returns 0 and raises no error on every
combination of registered runner and frame, and with no runner
registered it queues nothing (the event is silently dropped). -/
theorem trace_neutral_on_every_path (runner : Option RunnerState)
    (frame : Option Frame) :
    (pythonTraceFunction runner frame).ret = 0 ∧
    (pythonTraceFunction runner frame).raisesError = false ∧
    (pythonTraceFunction none frame).queued = [] := by
  rcases runner with _ | r <;> rcases frame with _ | f <;>
    first
      | exact ⟨rfl, rfl, rfl⟩
      | (cases hr : r.shouldAbort <;> simp [pythonTraceFunction, hr])

/-- Claim C7: with the runner's callback installed, the session's
output signals are exactly the program's writes, as `outputReceived`
signals in write order; in particular writes "A", "B", "C" yield
`outputReceived` "A", "B", "C" in that order. -/
theorem output_delivered_in_write_order :
    (∀ writes : List String,
      sessionOutputSignals (some runnerOutputCallback) writes =
        writes.map Signal.outputReceived) ∧
    sessionOutputSignals (some runnerOutputCallback) ["A", "B", "C"] =
      [Signal.outputReceived "A", Signal.outputReceived "B",
       Signal.outputReceived "C"] := by
  have h : ∀ writes : List String,
      sessionOutputSignals (some runnerOutputCallback) writes =
        writes.map Signal.outputReceived := by
    intro writes
    induction writes with
    | nil => rfl
    | cons w ws ih =>
        simp [sessionOutputSignals, outputRedirectorWrite, cppCallbackWrapper,
          runnerOutputCallback, ih]
  exact ⟨h, h ["A", "B", "C"]⟩

/-- Claim C8: every exit path of `executePythonCodeSafely` clears the
executing flag, and a subsequent `runCode` on the resulting state is
accepted (enqueued, no warning) — faults end the session, never the
controller. -/
theorem session_end_restores_acceptance (s : RunnerState) (env : ExecEnv)
    (code : String) :
    (executePythonCodeSafely s env).1.isExecuting = false ∧
    (runCode code (executePythonCodeSafely s env).1).enqueued = some code ∧
    (runCode code (executePythonCodeSafely s env).1).warned = false := by
  rcases env with ⟨init, writes, result⟩
  cases init <;> cases result <;>
    simp [executePythonCodeSafely, runCode]

/-- Claim C9 (modelled from the spec, the pause/wait code being absent
from src/): the pause protocol entered with the GIL held never reaches
its condition-variable wait while holding the GIL, and holds the GIL
again when it returns control to the interpreter. -/
theorem pause_never_waits_holding_gil :
    neverWaitsWhileHolding true pauseProtocol = true ∧
    gilHeldAfter true pauseProtocol = true :=
  ⟨rfl, rfl⟩

/-- Claim C10: constructing a `CodeRunner` unconditionally overwrites
the process-wide runner pointer (a second construction redirects it
away from the first), and destruction leaves the pointer unchanged,
only setting the abort flag of the destroyed runner's own state. -/
theorem construct_overwrites_destruct_keeps :
    (∀ (rid : Nat) (g : Option Nat), constructRunner rid g = some rid) ∧
    (∀ (rid1 rid2 : Nat) (g : Option Nat),
      constructRunner rid2 (constructRunner rid1 g) = some rid2) ∧
    (∀ (r : RunnerState) (g : Option Nat),
      destructRunner r g = ({ r with shouldAbort := true }, g)) :=
  ⟨fun _ _ => rfl, fun _ _ _ => rfl, fun _ _ => rfl⟩

end QtPythonEmbed
